import Mathlib

/-!
Verification of the Automation logging repository.

This file shallowly embeds the logging pipeline of the repository
(`final_logger.py`, `qlogger.py`, `q_logger2.py`, `custom_logger.py`)
and proves or refutes the frozen claims about it.

Python integer log levels are kept as `Nat` (DEBUG = 10, INFO = 20,
WARNING = 30, ERROR = 40, CRITICAL = 50).  A log record is modelled by
its severity number, its message (a list of characters, mirroring a
Python `str`), and the `user_id` attribute injected by `ContextFilter`.
The three handlers installed by `CaptureConsoleLogs.setup_logger`
(rotating file handler, console stream handler, queue handler feeding a
`QueueListener` that replays to the same two handlers) are modelled by a
`PipeState` holding the queue contents and the sequence of records each
sink has observed.
-/

/-- The sensitive token redacted by `SensitiveDataFilter`
(`final_logger.py`, line 50): the characters of "password". -/
def pwdList : List Char := "password".data

/-- The mask written in place of the sensitive token ("******"). -/
def maskList : List Char := "******".data

/-- Fuel-indexed worker for `str.replace("password", "******")`:
scans left to right, and on a match emits the mask and continues after
the matched region, exactly as Python `str.replace` does.  The fuel is
always instantiated with the length of the scanned list, which is
enough for every step to make progress. -/
def replaceAllAux : Nat → List Char → List Char
  | 0, l => l
  | _ + 1, [] => []
  | fuel + 1, c :: rest =>
    if pwdList.isPrefixOf (c :: rest) then
      maskList ++ replaceAllAux fuel (rest.drop 7)
    else
      c :: replaceAllAux fuel rest

/-- Model of `SensitiveDataFilter`'s message transformation
(`record.msg = str(record.msg).replace("password", "******")`). -/
def replaceAllPwd (l : List Char) : List Char := replaceAllAux l.length l

/-- A log record as it travels through the logging pipeline:
severity number, message text, and the `user_id` attribute added by
`ContextFilter` (absent until that filter runs). -/
structure Record where
  levelno : Nat
  msg : List Char
  userId : Option String
deriving DecidableEq

/-- Model of `SensitiveDataFilter.filter` (`final_logger.py`, lines 49-51):
masks the sensitive token in `record.msg` and returns `True`. -/
def sensitiveFilter (r : Record) : Record × Bool :=
  ({ r with msg := replaceAllPwd r.msg }, true)

/-- Model of `ContextFilter.filter` (`final_logger.py`, lines 57-60):
sets `record.user_id = "12345"` and returns `True`. -/
def contextFilter (r : Record) : Record × Bool :=
  ({ r with userId := some "12345" }, true)

/-- The logger-level filter chain as Python `logging.Logger.filter`
runs it: filters in installation order (`SensitiveDataFilter` then
`ContextFilter`); a `False` from either one rejects the record. -/
def applyFilters (r : Record) : Option Record :=
  let p1 := sensitiveFilter r
  if p1.2 then
    let p2 := contextFilter p1.1
    if p2.2 then some p2.1 else none
  else none

/-- The observable state of the sink set built by
`CaptureConsoleLogs.setup_logger`: the pending queue behind the
`QueueHandler`, and the records delivered to the file and console
handlers, in delivery order. -/
structure PipeState where
  queue : List Record
  fileSink : List Record
  consoleSink : List Record
deriving DecidableEq

/-- Model of `Logger.callHandlers` over the three installed handlers: the file
and console handlers are attached directly (each guarded by its own
handler level), and the queue handler (level NOTSET) always enqueues. -/
def callHandlers (fileLevel consoleLevel : Nat) (st : PipeState) (r : Record) : PipeState :=
  let st1 := if fileLevel ≤ r.levelno then { st with fileSink := st.fileSink ++ [r] } else st
  let st2 := if consoleLevel ≤ r.levelno then { st1 with consoleSink := st1.consoleSink ++ [r] } else st1
  { st2 with queue := st2.queue ++ [r] }

/-- Model of `Logger.handle`: run the logger-attached filters, then hand the
record to the handlers unless a filter rejected it. -/
def loggerHandle (fileLevel consoleLevel : Nat) (st : PipeState) (r : Record) : PipeState :=
  match applyFilters r with
  | some r2 => callHandlers fileLevel consoleLevel st r2
  | none => st

/-- Model of `logging.Logger.info` and friends: the `isEnabledFor` gate
(severity at least the logger's level) followed by record construction
and `handle`.  A freshly constructed record has no `user_id` yet. -/
def emitLevel (loggerLevel fileLevel consoleLevel lvl : Nat) (st : PipeState) (m : List Char) : PipeState :=
  if loggerLevel ≤ lvl then
    loggerHandle fileLevel consoleLevel st { levelno := lvl, msg := m, userId := none }
  else st

/-- Message built by `CustomLogger.info`
(`f"{file_name} {line_num} : {timestamp} INFO: {msg}"`). -/
def infoMessage (file : String) (line : Nat) (ts msg : String) : String :=
  file ++ " " ++ toString line ++ " : " ++ ts ++ " INFO: " ++ msg

/-- Message built by `CustomLogger.debug`. -/
def debugMessage (file : String) (line : Nat) (ts msg : String) : String :=
  file ++ " " ++ toString line ++ " : " ++ ts ++ " DEBUG: " ++ msg

/-- Message built by `CustomLogger.warning`. -/
def warningMessage (file : String) (line : Nat) (ts msg : String) : String :=
  file ++ " " ++ toString line ++ " : " ++ ts ++ " WARNING: " ++ msg

/-- The last traceback frame extracted by `CustomLogger.error` when
`sys.exc_info()` reports an in-flight exception. -/
structure ExcTb where
  file : String
  line : Nat
  func : String
  context : String
deriving DecidableEq

/-- The `msg += f"\n Exception in {file_name}, Line {line_number}, in
{func_name}: {context}"` augmentation in `CustomLogger.error`
(`final_logger.py`, lines 91-94); no active exception leaves the
message unchanged. -/
def errorAugment (msg : String) (exc : Option ExcTb) : String :=
  match exc with
  | some e =>
    msg ++ "\n Exception in " ++ e.file ++ ", Line " ++ toString e.line ++ ", in " ++ e.func ++ ": " ++ e.context
  | none => msg

/-- Message built by `CustomLogger.error`: the exception block is
appended to the user message before the caller/timestamp prefix. -/
def errorMessage (file : String) (line : Nat) (ts msg : String) (exc : Option ExcTb) : String :=
  file ++ " " ++ toString line ++ " : " ++ ts ++ " ERROR: " ++ errorAugment msg exc

/-- Modelled from the spec: the plain rendering template
`"<file> <line> : <timestamp> <LEVEL>: <message>"` of section 4.3. -/
def specPlainTemplate (file : String) (line : Nat) (ts level msg : String) : String :=
  file ++ " " ++ toString line ++ " : " ++ ts ++ " " ++ level ++ ": " ++ msg

/-- Model of `final_logger.CustomLogger.info`: resolve the caller (exactly one
stack inspection, counted in the second component), build the prefixed
message, and emit through `super().info`, i.e. at severity 20. -/
def flInfo (loggerLevel fileLevel consoleLevel : Nat) (st : PipeState)
    (file : String) (line : Nat) (ts msg : String) : PipeState × Nat :=
  (emitLevel loggerLevel fileLevel consoleLevel 20 st (infoMessage file line ts msg).data, 1)

/-- Model of `final_logger.CustomLogger.debug` (lines 77-81): builds a message
labelled DEBUG but emits through `super().info`, i.e. at severity 20. -/
def flDebug (loggerLevel fileLevel consoleLevel : Nat) (st : PipeState)
    (file : String) (line : Nat) (ts msg : String) : PipeState × Nat :=
  (emitLevel loggerLevel fileLevel consoleLevel 20 st (debugMessage file line ts msg).data, 1)

/-- Model of `final_logger.CustomLogger.warning` (lines 83-87): builds a message
labelled WARNING but emits through `super().info`, i.e. at severity 20. -/
def flWarning (loggerLevel fileLevel consoleLevel : Nat) (st : PipeState)
    (file : String) (line : Nat) (ts msg : String) : PipeState × Nat :=
  (emitLevel loggerLevel fileLevel consoleLevel 20 st (warningMessage file line ts msg).data, 1)

/-- Model of `final_logger.CustomLogger.error` (lines 89-98): appends any
in-flight exception block, builds a message labelled ERROR, and emits
through `super().info`, i.e. at severity 20. -/
def flError (loggerLevel fileLevel consoleLevel : Nat) (st : PipeState)
    (file : String) (line : Nat) (ts msg : String) (exc : Option ExcTb) : PipeState × Nat :=
  (emitLevel loggerLevel fileLevel consoleLevel 20 st (errorMessage file line ts msg exc).data, 1)

/-- Model of `QueueListener.stop` (called by
`CaptureConsoleLogs.shutdown_logger`): drain the queue, replaying every
queued record to the listener's handlers (the same file and console
handlers; `respect_handler_level` is left at its `False` default, so no
level check applies on this path). -/
def queueListenerStop (st : PipeState) : PipeState :=
  { queue := [],
    fileSink := st.fileSink ++ st.queue,
    consoleSink := st.consoleSink ++ st.queue }

/-- Model of `CaptureConsoleLogs.shutdown_logger` (`final_logger.py`, lines
187-191): stop the queue listener (draining the queue), then
`logging.shutdown()` (flush/close, which moves no records). -/
def shutdown_logger (st : PipeState) : PipeState := queueListenerStop st

/-- Model of `CustomLogger.__get_call_info` (`qlogger.py`, lines 68-78): the
active stack as a list of (filename, line) frames, indexed at position
2 with no guard — a stack shallower than three frames raises
`IndexError`, modelled as an error result. -/
def getCallInfo (stack : List (String × Int)) : Except String (String × Int) :=
  match stack.get? 2 with
  | some fr => Except.ok fr
  | none => Except.error "IndexError: list index out of range"

/-- colorama `Fore.CYAN`. -/
def foreCYAN : String := "\x1b[36m"

/-- colorama `Style.RESET_ALL`. -/
def styleReset : String := "\x1b[0m"

/-- The colored text built by `custom_logger.CustomLogger.log_debug`. -/
def clDebugText (dt className methodName : String) (line : Nat) (message : String) : String :=
  foreCYAN ++ dt ++ " - " ++ className ++ "." ++ methodName ++ " (Line " ++ toString line
    ++ "): " ++ message ++ styleReset

/-- Model of `custom_logger.CustomLogger.log_debug` (lines 64-66): resolves the
caller unconditionally (`_get_caller_info`, counted in the second
component), then calls `self.logger.debug`, whose `isEnabledFor(10)`
gate decides whether a record is constructed at all. -/
def clLogDebug (loggerLevel : Nat) (dt className methodName : String) (line : Nat)
    (message : String) : List Record × Nat :=
  (if loggerLevel ≤ 10 then
    [{ levelno := 10, msg := (clDebugText dt className methodName line message).data, userId := none }]
   else [], 1)

/-- The shared logger value held by `CaptureConsoleLogs`: its logging
name, the log file its rotating file handler writes, and its level. -/
structure LoggerH where
  name : String
  fileName : String
  level : Nat
deriving DecidableEq

/-- The class-level state of `final_logger.CaptureConsoleLogs`:
`_shared_logger`, `_log_file_name`, `_created_loggers` (a dict that is
read but never written), and the log files physically created by
constructing file handlers. -/
structure Registry where
  sharedLogger : Option LoggerH
  logFileName : Option String
  createdLoggers : List String
  filesCreated : List String
deriving DecidableEq

/-- Model of `CaptureConsoleLogs.setup_logger` (`final_logger.py`, lines
137-181): returns the existing shared logger if one exists; otherwise
constructs a `CustomLogger`, creates the log file for its rotating
file handler, and stores it as the shared logger. -/
def setup_logger (reg : Registry) (logFileName : String) (logLevel : Nat) : LoggerH × Registry :=
  match reg.sharedLogger with
  | some lg => (lg, reg)
  | none =>
    let lg : LoggerH := { name := "custom_logger", fileName := logFileName, level := logLevel }
    (lg, { reg with
            sharedLogger := some lg,
            filesCreated := reg.filesCreated ++ [logFileName] })

/-- Model of `CaptureConsoleLogs.get_logger` (`final_logger.py`, lines
117-134): creates the shared logger on first acquisition (stamping the
file name with the timestamp), otherwise returns the existing shared
logger regardless of the name argument; then applies the
environment-dependent `setLevel` to the shared logger (`none` models
the `AttributeError` Python would raise were the shared logger still
unset on that line). -/
def get_logger (env : String) (reg : Registry) (logFileName : String) (logLevel : Nat)
    (ts : String) : Option (LoggerH × Registry) :=
  let step :=
    if reg.sharedLogger = none ∧ ¬ logFileName ∈ reg.createdLoggers then
      let fname := logFileName ++ "_" ++ ts ++ ".log"
      let p := setup_logger reg fname logLevel
      (some p.1, { p.2 with logFileName := some fname })
    else (reg.sharedLogger, reg)
  match step.1 with
  | none => none
  | some lg =>
    let lg2 := if env = "production" then { lg with level := 30 } else { lg with level := logLevel }
    some (lg2, { step.2 with sharedLogger := some lg2 })

/-- Model of `custom_logger.CustomLogger.end_timer` (lines 87-93): with a
recorded start time it logs the elapsed time at INFO; without one it
logs "Timer was not started before calling end_timer!" at WARNING.
Either way it returns normally through the underlying logger's level
gate. -/
def end_timer (loggerLevel : Nat) (startTime : Option Nat) (now : Nat) (logMsg : String) :
    List Record :=
  match startTime with
  | some t0 =>
    if loggerLevel ≤ 20 then
      [{ levelno := 20,
         msg := ("End: " ++ logMsg ++ " | Elapsed Time: " ++ toString (now - t0)).data,
         userId := none }]
    else []
  | none =>
    if loggerLevel ≤ 30 then
      [{ levelno := 30,
         msg := ("Timer was not started before calling end_timer!").data,
         userId := none }]
    else []

/-- The `level_dict` of `custom_logger.CustomLogger.set_level`. -/
def level_dict : List (String × Nat) :=
  [("DEBUG", 10), ("INFO", 20), ("WARNING", 30), ("ERROR", 40), ("CRITICAL", 50)]

/-- Python `str.upper()`, modelled character-wise (the level names fed
to it are ASCII, where `Char.toUpper` agrees with Python). -/
def strUpper (s : String) : String := ⟨s.data.map Char.toUpper⟩

/-- Model of `custom_logger.CustomLogger.set_level` (lines 95-104): the new
logger level is `level_dict.get(level.upper(), logging.INFO)` — an
unrecognised name silently yields INFO (20). -/
def set_level (level : String) : Nat :=
  (level_dict.lookup (strUpper level)).getD 20

theorem mem_mask_star {x : Char} (h : x ∈ maskList) : x = '*' := by
  have h2 : x ∈ List.replicate 6 '*' := h
  exact List.eq_of_mem_replicate h2

theorem star_not_mem_pwd : ¬ ('*' ∈ pwdList) := by decide

/-- A nonempty suffix of "password" that is a prefix of a redacted list
is already a prefix of the unredacted list (no character of "password"
is the mask character, so such a prefix cannot overlap a mask). -/
theorem suffix_prefix_transfer :
    ∀ (fuel : Nat) (l q : List Char), q ≠ [] → q <:+ pwdList →
      q <+: replaceAllAux fuel l → q <+: l := by
  intro fuel
  induction fuel with
  | zero => intro l q _ _ hpre; simpa [replaceAllAux] using hpre
  | succ fuel ih =>
    intro l q hne hsuf hpre
    match l with
    | [] => simp only [replaceAllAux] at hpre; exact absurd (List.prefix_nil.mp hpre) hne
    | c :: rest =>
      match q, hne with
      | q0 :: q', _ =>
        by_cases hp : pwdList.isPrefixOf (c :: rest) = true
        · simp only [replaceAllAux, if_pos hp] at hpre
          have hq0 : q0 ∈ pwdList := by
            obtain ⟨t, ht⟩ := hsuf
            rw [← ht]
            exact List.mem_append_right t (List.mem_cons_self q0 q')
          have hstar : q0 = '*' := by
            have hmask : maskList ++ replaceAllAux fuel (rest.drop 7)
                = '*' :: ("*****".data ++ replaceAllAux fuel (rest.drop 7)) := rfl
            rw [hmask] at hpre
            exact (List.cons_prefix_cons.mp hpre).1
          exact absurd (hstar ▸ hq0) star_not_mem_pwd
        · simp only [replaceAllAux, if_neg hp] at hpre
          obtain ⟨hq0c, hq'⟩ := List.cons_prefix_cons.mp hpre
          subst hq0c
          rcases eq_or_ne q' [] with rfl | hq'ne
          · exact List.cons_prefix_cons.mpr ⟨rfl, List.nil_prefix⟩
          · have hsuf' : q' <:+ pwdList := by
              obtain ⟨t, ht⟩ := hsuf
              exact ⟨t ++ [q0], by rw [← ht]; simp⟩
            exact List.cons_prefix_cons.mpr ⟨rfl, ih rest q' hq'ne hsuf' hq'⟩

/-- The token "password" is never a prefix of a redacted list. -/
theorem pwd_not_prefix_replace :
    ∀ (fuel : Nat) (l : List Char), l.length ≤ fuel →
      ¬ pwdList <+: replaceAllAux fuel l := by
  intro fuel l hlen hpre
  match fuel, l, hlen with
  | 0, l, hlen =>
    have : l = [] := List.length_eq_zero.mp (Nat.le_zero.mp hlen)
    subst this
    simp only [replaceAllAux] at hpre
    exact absurd (List.prefix_nil.mp hpre) (by decide)
  | fuel + 1, [], _ =>
    simp only [replaceAllAux] at hpre
    exact absurd (List.prefix_nil.mp hpre) (by decide)
  | fuel + 1, c :: rest, hlen =>
    by_cases hp : pwdList.isPrefixOf (c :: rest) = true
    · simp only [replaceAllAux, if_pos hp] at hpre
      have hmask : maskList ++ replaceAllAux fuel (rest.drop 7)
          = '*' :: ("*****".data ++ replaceAllAux fuel (rest.drop 7)) := rfl
      have hpwd : pwdList = 'p' :: "assword".data := rfl
      rw [hmask, hpwd] at hpre
      exact absurd (List.cons_prefix_cons.mp hpre).1 (by decide)
    · simp only [replaceAllAux, if_neg hp] at hpre
      have hpwd : pwdList = 'p' :: "assword".data := rfl
      rw [hpwd] at hpre
      obtain ⟨hpc, htl⟩ := List.cons_prefix_cons.mp hpre
      have htl' : ("assword".data : List Char) <+: rest :=
        suffix_prefix_transfer fuel rest _ (by decide) (by decide) htl
      have : pwdList <+: c :: rest := by
        rw [hpwd]
        exact List.cons_prefix_cons.mpr ⟨hpc, htl'⟩
      rw [← List.isPrefixOf_iff_prefix] at this
      exact hp this

/-- An occurrence of "password" cannot overlap the mask block. -/
theorem pwd_not_infix_mask_append {z : List Char}
    (h : pwdList <:+: maskList ++ z) : pwdList <:+: z := by
  obtain ⟨a, b, hab⟩ := h
  rw [List.append_assoc] at hab
  rcases List.append_eq_append_iff.mp hab with ⟨a', h1, h2⟩ | ⟨c', h1, h2⟩
  · match a' with
    | [] =>
      rw [List.nil_append] at h2
      exact ⟨[], b, by simp [h2]⟩
    | x :: a'' =>
      have hx : x ∈ maskList := by rw [h1]; exact List.mem_append_right a (List.mem_cons_self x a'')
      have hx' : x = '*' := mem_mask_star hx
      have hpwd : pwdList = 'p' :: "assword".data := rfl
      rw [hpwd, List.cons_append, List.cons_append] at h2
      have := (List.cons.injEq _ _ _ _).mp h2
      rw [hx'] at this
      exact absurd this.1 (by decide)
  · exact ⟨c', b, by rw [h2, List.append_assoc]⟩

/-- The token "password" never occurs anywhere in a redacted list. -/
theorem pwd_not_infix_replace :
    ∀ (fuel : Nat) (l : List Char), l.length ≤ fuel →
      ¬ pwdList <:+: replaceAllAux fuel l := by
  intro fuel
  induction fuel with
  | zero =>
    intro l hlen hinf
    have : l = [] := List.length_eq_zero.mp (Nat.le_zero.mp hlen)
    subst this
    simp only [replaceAllAux, List.infix_nil] at hinf
    exact absurd hinf (by decide)
  | succ fuel ih =>
    intro l hlen hinf
    match l, hlen with
    | [], _ =>
      simp only [replaceAllAux, List.infix_nil] at hinf
      exact absurd hinf (by decide)
    | c :: rest, hlen =>
      have hrest : rest.length ≤ fuel := by
        simpa [Nat.succ_le_succ_iff] using hlen
      by_cases hp : pwdList.isPrefixOf (c :: rest) = true
      · simp only [replaceAllAux, if_pos hp] at hinf
        have h2 := pwd_not_infix_mask_append hinf
        exact ih (rest.drop 7) (by simp; omega) h2
      · simp only [replaceAllAux, if_neg hp] at hinf
        rcases List.infix_cons_iff.mp hinf with hpre | hinf'
        · have : pwdList <+: replaceAllAux (fuel + 1) (c :: rest) := by
            simp only [replaceAllAux]
            rw [if_neg hp]
            exact hpre
          exact pwd_not_prefix_replace (fuel + 1) (c :: rest) hlen this
        · exact ih rest hrest hinf'

/-- The output of `SensitiveDataFilter`'s replacement contains no
occurrence of "password" at all. -/
theorem redact_no_pwd (l : List Char) : ¬ pwdList <:+: replaceAllPwd l :=
  pwd_not_infix_replace l.length l (Nat.le_refl _)

theorem strAppend_assoc (a b c : String) : a ++ b ++ c = a ++ (b ++ c) := by
  obtain ⟨la⟩ := a
  obtain ⟨lb⟩ := b
  obtain ⟨lc⟩ := c
  exact congrArg String.mk (List.append_assoc la lb lc)

/-- The filter chain installed by `setup_logger` accepts every record,
redacting its message and stamping the `user_id` attribute. -/
theorem applyFilters_eq (r : Record) :
    applyFilters r = some { levelno := r.levelno, msg := replaceAllPwd r.msg, userId := some "12345" } :=
  rfl

theorem callHandlers_queue (fl cl : Nat) (st : PipeState) (r : Record) :
    (callHandlers fl cl st r).queue = st.queue ++ [r] := by
  simp only [callHandlers]
  by_cases h1 : fl ≤ r.levelno <;> by_cases h2 : cl ≤ r.levelno <;> simp [h1, h2]

theorem callHandlers_fileSink (fl cl : Nat) (st : PipeState) (r : Record) :
    (callHandlers fl cl st r).fileSink = st.fileSink ++ (if fl ≤ r.levelno then [r] else []) := by
  simp only [callHandlers]
  by_cases h1 : fl ≤ r.levelno <;> by_cases h2 : cl ≤ r.levelno <;> simp [h1, h2]

theorem callHandlers_consoleSink (fl cl : Nat) (st : PipeState) (r : Record) :
    (callHandlers fl cl st r).consoleSink = st.consoleSink ++ (if cl ≤ r.levelno then [r] else []) := by
  simp only [callHandlers]
  by_cases h1 : fl ≤ r.levelno <;> by_cases h2 : cl ≤ r.levelno <;> simp [h1, h2]

theorem loggerHandle_queue (fl cl : Nat) (st : PipeState) (r : Record) :
    (loggerHandle fl cl st r).queue
      = st.queue ++ [{ levelno := r.levelno, msg := replaceAllPwd r.msg, userId := some "12345" }] := by
  simp only [loggerHandle, applyFilters_eq]
  exact callHandlers_queue fl cl st _

theorem emitLevel_queue_length (lg fl cl lvl : Nat) (st : PipeState) (m : List Char) :
    (emitLevel lg fl cl lvl st m).queue.length
      = if lg ≤ lvl then st.queue.length + 1 else st.queue.length := by
  by_cases h : lg ≤ lvl
  · simp [emitLevel, h, loggerHandle_queue]
  · simp [emitLevel, h]

/-- Claim C1 (code_bug evidence): in `final_logger.py` the `warning`,
`debug` and `error` level methods all route their emission through
`super().info`, so each of these calls delivers its record at severity
20 (INFO) to every sink — never at its own severity (WARNING = 30,
DEBUG = 10, ERROR = 40). -/
theorem severity_shortcut_emits_info :
    ((flWarning 10 10 10 ⟨[], [], []⟩ "a.py" 3 "ts" "m").1.fileSink.map Record.levelno = [20])
  ∧ ((flWarning 10 10 10 ⟨[], [], []⟩ "a.py" 3 "ts" "m").1.consoleSink.map Record.levelno = [20])
  ∧ ((flWarning 10 10 10 ⟨[], [], []⟩ "a.py" 3 "ts" "m").1.queue.map Record.levelno = [20])
  ∧ ((flDebug 10 10 10 ⟨[], [], []⟩ "a.py" 3 "ts" "m").1.fileSink.map Record.levelno = [20])
  ∧ ((flError 10 10 10 ⟨[], [], []⟩ "a.py" 3 "ts" "m" none).1.fileSink.map Record.levelno = [20]) := by
  refine ⟨rfl, rfl, rfl, rfl, rfl⟩

/-- Claim C2 counterexample: with the logger configured at INFO (20),
a `debug()` call — whose own level DEBUG (10) is strictly below the
configured level — still performs one caller-stack resolution, still
constructs a record, and still delivers it to the file sink, because
`final_logger.CustomLogger.debug` resolves the caller before any level
check and then emits through `super().info`. -/
theorem debug_below_minLevel_still_logs :
    (10 : Nat) < 20
  ∧ (flDebug 20 10 10 ⟨[], [], []⟩ "a.py" 3 "ts" "m").1.fileSink.length = 1
  ∧ (flDebug 20 10 10 ⟨[], [], []⟩ "a.py" 3 "ts" "m").2 = 1 := by
  refine ⟨by decide, rfl, rfl⟩

/-- Claim C2 amended: every `debug()` call performs exactly one
caller-stack resolution regardless of the configured level; in
`final_logger.py` it constructs and enqueues a record whenever INFO
(20) passes the logger's level — even when DEBUG is disabled — while
`custom_logger.log_debug` also always resolves the caller but lets the
underlying logger's gate suppress record construction when DEBUG (10)
is below the configured level. -/
theorem disabled_level_behavior (lgLvl fl cl : Nat) (st : PipeState) (f : String) (ln : Nat)
    (ts m : String) (cLvl : Nat) (dt cn mn : String) (l2 : Nat) (m2 : String) :
    (flDebug lgLvl fl cl st f ln ts m).2 = 1
  ∧ (flDebug lgLvl fl cl st f ln ts m).1.queue.length
      = (if lgLvl ≤ 20 then st.queue.length + 1 else st.queue.length)
  ∧ (clLogDebug cLvl dt cn mn l2 m2).2 = 1
  ∧ (clLogDebug cLvl dt cn mn l2 m2).1.length = (if cLvl ≤ 10 then 1 else 0) := by
  refine ⟨rfl, emitLevel_queue_length lgLvl fl cl 20 st _, rfl, ?_⟩
  by_cases h : cLvl ≤ 10 <;> simp [clLogDebug, h]

/-- Claim C3 (code_bug evidence): `setup_logger` attaches the file and
console handlers directly to the logger and also registers the same
two handlers behind the `QueueHandler`/`QueueListener`, so after one
`info()` call followed by `shutdown_logger` each sink holds the same
record twice — not exactly once. -/
theorem shutdown_double_delivery :
    ∃ r2 : Record,
      (shutdown_logger (flInfo 10 10 10 ⟨[], [], []⟩ "a.py" 3 "ts" "hello").1).fileSink = [r2, r2]
    ∧ (shutdown_logger (flInfo 10 10 10 ⟨[], [], []⟩ "a.py" 3 "ts" "hello").1).consoleSink = [r2, r2] :=
  ⟨{ levelno := 20, msg := replaceAllPwd (infoMessage "a.py" 3 "ts" "hello").data,
     userId := some "12345" },
   rfl, rfl⟩

/-- Claim C4: the filter chain accepts every record, replaces all
occurrences of "password" in the message field (and no other field)
with the mask before the record reaches any handler, and every record
handed to the file sink, console sink or queue is the redacted one, in
whose message "password" no longer occurs anywhere. -/
theorem redaction_masks_password (fl cl : Nat) (st : PipeState) (r : Record) :
    ∃ r2 : Record,
      applyFilters r = some r2
    ∧ (sensitiveFilter r).1.msg = replaceAllPwd r.msg
    ∧ (sensitiveFilter r).1.levelno = r.levelno
    ∧ (sensitiveFilter r).1.userId = r.userId
    ∧ r2.msg = replaceAllPwd r.msg
    ∧ r2.levelno = r.levelno
    ∧ ¬ pwdList <:+: r2.msg
    ∧ (loggerHandle fl cl st r).fileSink = st.fileSink ++ (if fl ≤ r.levelno then [r2] else [])
    ∧ (loggerHandle fl cl st r).consoleSink = st.consoleSink ++ (if cl ≤ r.levelno then [r2] else [])
    ∧ (loggerHandle fl cl st r).queue = st.queue ++ [r2] := by
  refine ⟨{ levelno := r.levelno, msg := replaceAllPwd r.msg, userId := some "12345" },
    applyFilters_eq r, rfl, rfl, rfl, rfl, rfl, redact_no_pwd r.msg, ?_, ?_, ?_⟩
  · simp only [loggerHandle, applyFilters_eq]
    exact callHandlers_fileSink fl cl st _
  · simp only [loggerHandle, applyFilters_eq]
    exact callHandlers_consoleSink fl cl st _
  · exact loggerHandle_queue fl cl st r

/-- Claim C5 counterexample: on a two-frame stack the caller resolver
of `qlogger.py` raises `IndexError` (the unguarded `stack[2]` lookup)
instead of returning the sentinel ("unknown", -1). -/
theorem shallow_stack_raises :
    getCallInfo [("repl", 1), ("wrapper", 2)] = Except.error "IndexError: list index out of range"
  ∧ getCallInfo [("repl", 1), ("wrapper", 2)] ≠ Except.ok ("unknown", -1) := by
  refine ⟨rfl, ?_⟩
  intro h
  simp [getCallInfo] at h

/-- Claim C5 amended: when the active stack holds fewer than three
frames the resolver raises `IndexError` (no sentinel fallback exists);
with three or more frames it returns the file and line of frame 2. -/
theorem resolver_raises_on_shallow_stack :
    (∀ s : List (String × Int), s.length ≤ 2 →
        getCallInfo s = Except.error "IndexError: list index out of range")
  ∧ (∀ (a b c : String × Int) (r : List (String × Int)),
        getCallInfo (a :: b :: c :: r) = Except.ok c) := by
  constructor
  · intro s hs
    match s with
    | [] => rfl
    | [_] => rfl
    | [_, _] => rfl
    | _ :: _ :: _ :: _ =>
      exfalso
      simp only [List.length_cons] at hs
      omega
  · intro a b c r
    rfl

theorem resolver_raises_witness :
    getCallInfo [] = Except.error "IndexError: list index out of range" :=
  resolver_raises_on_shallow_stack.1 [] (by decide)

/-- Claim C6 counterexample: after `get_logger("a", ...)` has created
the shared logger writing "a_t1.log", a first call `get_logger("b",
...)` does not construct a logger or file for "b": it returns the very
same logger, whose file is still "a_t1.log", and creates no new file —
refuting per-name get-or-create. -/
theorem registry_ignores_second_name :
    get_logger "development" ⟨none, none, [], []⟩ "a" 10 "t1"
      = some (⟨"custom_logger", "a_t1.log", 10⟩,
              ⟨some ⟨"custom_logger", "a_t1.log", 10⟩, some "a_t1.log", [], ["a_t1.log"]⟩)
  ∧ get_logger "development"
        ⟨some ⟨"custom_logger", "a_t1.log", 10⟩, some "a_t1.log", [], ["a_t1.log"]⟩ "b" 10 "t2"
      = some (⟨"custom_logger", "a_t1.log", 10⟩,
              ⟨some ⟨"custom_logger", "a_t1.log", 10⟩, some "a_t1.log", [], ["a_t1.log"]⟩)
  ∧ "a_t1.log" ≠ "b_t2.log" := by
  refine ⟨rfl, rfl, by decide⟩

/-- Claim C6 amended: once any logger exists, `get_logger` is
idempotent irrespective of the name argument: it returns the shared
logger (same logging name, same log file, level reset to the requested
one) and constructs no new sink set or log file. -/
theorem registry_returns_shared_after_first (reg : Registry) (lg : LoggerH) (name : String)
    (lvl : Nat) (ts env : String) (h : reg.sharedLogger = some lg) (henv : env ≠ "production") :
    ∃ lg2 : LoggerH,
      get_logger env reg name lvl ts = some (lg2, { reg with sharedLogger := some lg2 })
    ∧ lg2.name = lg.name
    ∧ lg2.fileName = lg.fileName
    ∧ lg2.level = lvl
    ∧ ({ reg with sharedLogger := some lg2 } : Registry).filesCreated = reg.filesCreated
    ∧ ({ reg with sharedLogger := some lg2 } : Registry).logFileName = reg.logFileName := by
  refine ⟨{ lg with level := lvl }, ?_, rfl, rfl, rfl, rfl, rfl⟩
  simp [get_logger, h, henv]

theorem registry_returns_shared_witness :
    ∃ lg2 : LoggerH,
      get_logger "development"
          ⟨some ⟨"custom_logger", "a_t1.log", 10⟩, some "a_t1.log", [], ["a_t1.log"]⟩ "b" 10 "t2"
        = some (lg2, ⟨some lg2, some "a_t1.log", [], ["a_t1.log"]⟩)
    ∧ lg2.fileName = "a_t1.log" := by
  obtain ⟨lg2, h1, _, h3, _, _, _⟩ :=
    registry_returns_shared_after_first
      ⟨some ⟨"custom_logger", "a_t1.log", 10⟩, some "a_t1.log", [], ["a_t1.log"]⟩
      ⟨"custom_logger", "a_t1.log", 10⟩ "b" 10 "t2" "development" rfl (by decide)
  exact ⟨lg2, h1, h3⟩

/-- Claim C7: for each level method, the message the code builds
equals the spec's plain template
"<file> <line> : <timestamp> <LEVEL>: <message>" at that method's
upper-case level name; for `error` the message field is the user
message with the exception block appended. -/
theorem plain_format_matches_template (f : String) (l : Nat) (t m : String) (e : ExcTb) :
    infoMessage f l t m = specPlainTemplate f l t "INFO" m
  ∧ debugMessage f l t m = specPlainTemplate f l t "DEBUG" m
  ∧ warningMessage f l t m = specPlainTemplate f l t "WARNING" m
  ∧ errorMessage f l t m none = specPlainTemplate f l t "ERROR" m
  ∧ errorMessage f l t m (some e) = specPlainTemplate f l t "ERROR" (errorAugment m (some e)) := by
  refine ⟨?_, ?_, ?_, ?_, ?_⟩ <;>
    · simp only [infoMessage, debugMessage, warningMessage, errorMessage, errorAugment,
        specPlainTemplate, strAppend_assoc]
      rfl

/-- Claim C8: `end_timer` with no recorded start time returns normally
and emits exactly one WARNING-severity (30) record. -/
theorem end_timer_without_start_warns (lvl now : Nat) (m : String) (h : lvl ≤ 30) :
    (end_timer lvl none now m).map Record.levelno = [30]
  ∧ end_timer lvl none now m ≠ [] := by
  simp [end_timer, h]

theorem end_timer_without_start_witness :
    (end_timer 10 none 5 "x").map Record.levelno = [30] :=
  (end_timer_without_start_warns 10 5 "x" (by decide)).1

/-- Claim C9 counterexample: "TRACE" is not one of the five known
level names, yet `set_level "TRACE"` silently yields INFO (20) — no
configuration error is surfaced. -/
theorem unknown_level_silently_info :
    ¬ ("TRACE" ∈ ["DEBUG", "INFO", "WARNING", "ERROR", "CRITICAL"])
  ∧ set_level "TRACE" = 20 := by
  refine ⟨by decide, by decide⟩

/-- Claim C9 amended: `set_level` with a name whose upper-casing is
not one of DEBUG, INFO, WARNING, ERROR, CRITICAL silently sets the
level to INFO (20) instead of surfacing an error. -/
theorem set_level_defaults_unknown_to_info (s : String)
    (h : ¬ strUpper s ∈ (["DEBUG", "INFO", "WARNING", "ERROR", "CRITICAL"] : List String)) :
    set_level s = 20 := by
  have hnone : level_dict.lookup (strUpper s) = none := by
    rw [List.lookup_eq_none_iff]
    intro p hp
    simp only [List.mem_cons, List.not_mem_nil, or_false, not_or] at h
    obtain ⟨h1, h2, h3, h4, h5⟩ := h
    simp only [level_dict, List.mem_cons, List.not_mem_nil, or_false] at hp
    rcases hp with rfl | rfl | rfl | rfl | rfl <;>
      simp only [bne_iff_ne, ne_eq] <;> assumption
  simp [set_level, hnone]

theorem set_level_defaults_witness : set_level "VERBOSE" = 20 :=
  set_level_defaults_unknown_to_info "VERBOSE" (by decide)

/-- Claim C10: both installed filters return `True` on every record,
the filter chain therefore never rejects, and every record passing the
logger's level check is handed to the handlers (the queue handler, at
level NOTSET, receives it unconditionally). -/
theorem filters_never_reject (r : Record) (lg fl cl lvl : Nat) (st : PipeState) (m : List Char) :
    (sensitiveFilter r).2 = true
  ∧ (contextFilter r).2 = true
  ∧ applyFilters r ≠ none
  ∧ (lg ≤ lvl → (emitLevel lg fl cl lvl st m).queue.length = st.queue.length + 1) := by
  refine ⟨rfl, rfl, by simp [applyFilters_eq], fun h => ?_⟩
  rw [emitLevel_queue_length]
  simp [h]

theorem filters_never_reject_witness :
    (emitLevel 10 10 10 20 ⟨[], [], []⟩ []).queue.length = 1 := by
  have h := (filters_never_reject ⟨20, [], none⟩ 10 10 10 20 ⟨[], [], []⟩ []).2.2.2 (by decide)
  simpa using h
